import Mathlib

/-
Verification development for the arcade repository fragment:
the line of sight example (scrolling camera, key movement) and the
window_commands module. Geometry is modelled over the rationals.
-/

/-- Margin constant from the example source: VIEWPORT_MARGIN = 250. -/
def VIEWPORT_MARGIN : ℚ := 250

/-- Movement speed constant from the example source: MOVEMENT_SPEED = 5. -/
def MOVEMENT_SPEED : ℤ := 5

/-- Axis aligned box given by center and size, as in the framework sprite
model used by the example (center_x, center_y, width, height with the edge
accessors derived from center and half size). -/
structure AABB where
  x : ℚ
  y : ℚ
  w : ℚ
  h : ℚ

def AABB.left (r : AABB) : ℚ := r.x - r.w / 2

def AABB.right (r : AABB) : ℚ := r.x + r.w / 2

def AABB.top (r : AABB) : ℚ := r.y + r.h / 2

def AABB.bottom (r : AABB) : ℚ := r.y - r.h / 2

/-- Modelled from the spec: the framework class Camera2D is not under src;
the spec (section 3, ViewRect) describes the camera view rectangle by its
center position and fixed half extents, with y growing upward. -/
structure Camera2D where
  position : ℚ × ℚ
  halfW : ℚ
  halfH : ℚ

/-- Modelled from the spec: top left corner of the view rectangle. -/
def Camera2D.topLeft (c : Camera2D) : ℚ × ℚ :=
  (c.position.1 - c.halfW, c.position.2 + c.halfH)

/-- Modelled from the spec: bottom right corner of the view rectangle. -/
def Camera2D.bottomRight (c : Camera2D) : ℚ × ℚ :=
  (c.position.1 + c.halfW, c.position.2 - c.halfH)

/-- left_boundary of the deadzone, as computed in on_update. -/
def leftBoundary (c : Camera2D) : ℚ := c.topLeft.1 + VIEWPORT_MARGIN

/-- top_boundary of the deadzone, as computed in on_update. -/
def topBoundary (c : Camera2D) : ℚ := c.topLeft.2 - VIEWPORT_MARGIN

/-- right_boundary of the deadzone, as computed in on_update. -/
def rightBoundary (c : Camera2D) : ℚ := c.bottomRight.1 - VIEWPORT_MARGIN

/-- bottom_boundary of the deadzone, as computed in on_update. -/
def bottomBoundary (c : Camera2D) : ℚ := c.bottomRight.2 + VIEWPORT_MARGIN

/-- The scrolling section of MyGame.on_update (source lines 147 to 185):
four boundary checks in source order (left, top, right, bottom), each
accumulating a translation onto the working camera position; the camera is
reassigned (some result) exactly when at least one check fired, and is left
untouched (none) otherwise. -/
def update_camera (cam : Camera2D) (player : AABB) : Option (ℚ × ℚ) :=
  let p1 : Bool × (ℚ × ℚ) :=
    if player.left < leftBoundary cam then
      (true, (cam.position.1 + (player.left - leftBoundary cam), cam.position.2))
    else (false, cam.position)
  let p2 : Bool × (ℚ × ℚ) :=
    if player.top > topBoundary cam then
      (true, (p1.2.1, p1.2.2 + (player.top - topBoundary cam)))
    else p1
  let p3 : Bool × (ℚ × ℚ) :=
    if player.right > rightBoundary cam then
      (true, (p2.2.1 + (player.right - rightBoundary cam), p2.2.2))
    else p2
  let p4 : Bool × (ℚ × ℚ) :=
    if player.bottom < bottomBoundary cam then
      (true, (p3.2.1, p3.2.2 + (player.bottom - bottomBoundary cam)))
    else p3
  if p4.1 then some p4.2 else none

/-- Total horizontal translation accumulated by the two x axis checks. -/
def scrollDx (cam : Camera2D) (p : AABB) : ℚ :=
  (if p.left < leftBoundary cam then p.left - leftBoundary cam else 0) +
  (if p.right > rightBoundary cam then p.right - rightBoundary cam else 0)

/-- Total vertical translation accumulated by the two y axis checks. -/
def scrollDy (cam : Camera2D) (p : AABB) : ℚ :=
  (if p.top > topBoundary cam then p.top - topBoundary cam else 0) +
  (if p.bottom < bottomBoundary cam then p.bottom - bottomBoundary cam else 0)

/-- Some deadzone boundary check fired. -/
def scrollNeeded (cam : Camera2D) (p : AABB) : Prop :=
  p.left < leftBoundary cam ∨ p.top > topBoundary cam ∨
  p.right > rightBoundary cam ∨ p.bottom < bottomBoundary cam

instance (cam : Camera2D) (p : AABB) : Decidable (scrollNeeded cam p) := by
  unfold scrollNeeded
  infer_instance

theorem update_camera_eq (cam : Camera2D) (p : AABB) :
    update_camera cam p =
      if scrollNeeded cam p then
        some (cam.position.1 + scrollDx cam p, cam.position.2 + scrollDy cam p)
      else none := by
  by_cases h1 : p.left < leftBoundary cam <;>
  by_cases h2 : p.top > topBoundary cam <;>
  by_cases h3 : p.right > rightBoundary cam <;>
  by_cases h4 : p.bottom < bottomBoundary cam <;>
  simp [update_camera, scrollNeeded, scrollDx, scrollDy, h1, h2, h3, h4,
    Prod.ext_iff]
  all_goals first
  | exact ⟨by ring, by ring⟩
  | ring

theorem leftBoundary_def (c : Camera2D) :
    leftBoundary c = c.position.1 - c.halfW + VIEWPORT_MARGIN := rfl

theorem topBoundary_def (c : Camera2D) :
    topBoundary c = c.position.2 + c.halfH - VIEWPORT_MARGIN := rfl

theorem rightBoundary_def (c : Camera2D) :
    rightBoundary c = c.position.1 + c.halfW - VIEWPORT_MARGIN := rfl

theorem bottomBoundary_def (c : Camera2D) :
    bottomBoundary c = c.position.2 - c.halfH + VIEWPORT_MARGIN := rfl

/-- After adding the accumulated horizontal translation to both x boundaries,
a box that fits horizontally into the deadzone is inside them. -/
theorem scrollDx_resolve (cam : Camera2D) (p : AABB)
    (hW : p.right - p.left ≤ rightBoundary cam - leftBoundary cam) :
    leftBoundary cam + scrollDx cam p ≤ p.left ∧
    p.right ≤ rightBoundary cam + scrollDx cam p := by
  unfold scrollDx
  split_ifs <;> constructor <;> linarith

/-- After adding the accumulated vertical translation to both y boundaries,
a box that fits vertically into the deadzone is inside them. -/
theorem scrollDy_resolve (cam : Camera2D) (p : AABB)
    (hH : p.top - p.bottom ≤ topBoundary cam - bottomBoundary cam) :
    bottomBoundary cam + scrollDy cam p ≤ p.bottom ∧
    p.top ≤ topBoundary cam + scrollDy cam p := by
  unfold scrollDy
  split_ifs <;> constructor <;> linarith

/-- C2: when the tracked box lies fully within the deadzone (left not past
the left boundary, top not past the top boundary, right not past the right
boundary, bottom not past the bottom boundary), the camera update is a
no-op: the camera position is not reassigned and no view update happens. -/
theorem update_camera_noop_inside_deadzone (cam : Camera2D) (p : AABB)
    (h1 : leftBoundary cam ≤ p.left) (h2 : p.top ≤ topBoundary cam)
    (h3 : p.right ≤ rightBoundary cam) (h4 : bottomBoundary cam ≤ p.bottom) :
    update_camera cam p = none := by
  have hc : ¬ scrollNeeded cam p := by
    unfold scrollNeeded
    push_neg
    exact ⟨h1, h2, h3, h4⟩
  rw [update_camera_eq, if_neg hc]

/-- Witness for C2 at a box dead center of the deadzone. -/
theorem update_camera_noop_inside_deadzone_witness :
    update_camera (Camera2D.mk (400, 300) 400 300) (AABB.mk 400 300 50 50) = none :=
  update_camera_noop_inside_deadzone (Camera2D.mk (400, 300) 400 300)
    (AABB.mk 400 300 50 50)
    (by norm_num [leftBoundary_def, AABB.left, VIEWPORT_MARGIN])
    (by norm_num [topBoundary_def, AABB.top, VIEWPORT_MARGIN])
    (by norm_num [rightBoundary_def, AABB.right, VIEWPORT_MARGIN])
    (by norm_num [bottomBoundary_def, AABB.bottom, VIEWPORT_MARGIN])

/-- C1 counterexample: with the camera centered at (400, 300), half extents
400 by 300 and margin 250, a tracked box whose left edge sits exactly
margin + 1 = 251 units past the left boundary yields a corrected center
whose x translation is -251, not 1 (in either sign convention). -/
theorem camera_margin_plus_one_translation_cex :
    leftBoundary (Camera2D.mk (400, 300) 400 300) - (AABB.mk 24 300 50 50).left =
      VIEWPORT_MARGIN + 1 ∧
    update_camera (Camera2D.mk (400, 300) 400 300) (AABB.mk 24 300 50 50) =
      some (149, 300) ∧
    ¬((149 : ℚ) - 400 = 1) ∧ ¬((400 : ℚ) - 149 = 1) := by
  refine ⟨?_, ?_, by norm_num, by norm_num⟩
  · norm_num [leftBoundary_def, AABB.left, VIEWPORT_MARGIN]
  · norm_num [update_camera, leftBoundary, topBoundary, rightBoundary, bottomBoundary,
      AABB.left, AABB.right, AABB.top, AABB.bottom, Camera2D.topLeft,
      Camera2D.bottomRight, VIEWPORT_MARGIN]

/-- C1 (amended): whenever a deadzone boundary is crossed and the opposite
boundary of the same axis is not, the returned center translates on that
axis by exactly the signed amount of crossing, and the crossed boundary,
recomputed at the returned center, lands exactly on the tracked edge. -/
theorem camera_translation_exact (cam : Camera2D) (p : AABB) :
    (p.left < leftBoundary cam → p.right ≤ rightBoundary cam →
      Option.map Prod.fst (update_camera cam p) =
        some (cam.position.1 + (p.left - leftBoundary cam)) ∧
      Option.map Prod.fst (update_camera cam p) =
        some (p.left + cam.halfW - VIEWPORT_MARGIN)) ∧
    (p.right > rightBoundary cam → leftBoundary cam ≤ p.left →
      Option.map Prod.fst (update_camera cam p) =
        some (cam.position.1 + (p.right - rightBoundary cam)) ∧
      Option.map Prod.fst (update_camera cam p) =
        some (p.right - cam.halfW + VIEWPORT_MARGIN)) ∧
    (p.top > topBoundary cam → bottomBoundary cam ≤ p.bottom →
      Option.map Prod.snd (update_camera cam p) =
        some (cam.position.2 + (p.top - topBoundary cam)) ∧
      Option.map Prod.snd (update_camera cam p) =
        some (p.top - cam.halfH + VIEWPORT_MARGIN)) ∧
    (p.bottom < bottomBoundary cam → p.top ≤ topBoundary cam →
      Option.map Prod.snd (update_camera cam p) =
        some (cam.position.2 + (p.bottom - bottomBoundary cam)) ∧
      Option.map Prod.snd (update_camera cam p) =
        some (p.bottom + cam.halfH - VIEWPORT_MARGIN)) := by
  refine ⟨?_, ?_, ?_, ?_⟩
  · intro ha hb
    have hs : scrollNeeded cam p := Or.inl ha
    have hdx : scrollDx cam p = p.left - leftBoundary cam := by
      unfold scrollDx
      rw [if_pos ha, if_neg (not_lt.2 hb), add_zero]
    rw [update_camera_eq, if_pos hs]
    refine ⟨by simp [hdx], ?_⟩
    simp [hdx, leftBoundary_def]
    ring
  · intro ha hb
    have hs : scrollNeeded cam p := Or.inr (Or.inr (Or.inl ha))
    have hdx : scrollDx cam p = p.right - rightBoundary cam := by
      unfold scrollDx
      rw [if_neg (not_lt.2 hb), if_pos ha, zero_add]
    rw [update_camera_eq, if_pos hs]
    refine ⟨by simp [hdx], ?_⟩
    simp [hdx, rightBoundary_def]
    ring
  · intro ha hb
    have hs : scrollNeeded cam p := Or.inr (Or.inl ha)
    have hdy : scrollDy cam p = p.top - topBoundary cam := by
      unfold scrollDy
      rw [if_pos ha, if_neg (not_lt.2 hb), add_zero]
    rw [update_camera_eq, if_pos hs]
    refine ⟨by simp [hdy], ?_⟩
    simp [hdy, topBoundary_def]
    ring
  · intro ha hb
    have hs : scrollNeeded cam p := Or.inr (Or.inr (Or.inr ha))
    have hdy : scrollDy cam p = p.bottom - bottomBoundary cam := by
      unfold scrollDy
      rw [if_neg (not_lt.2 hb), if_pos ha, zero_add]
    rw [update_camera_eq, if_pos hs]
    refine ⟨by simp [hdy], ?_⟩
    simp [hdy, bottomBoundary_def]
    ring

/-- Witness for C1 (amended) at the margin + 1 left crossing instance. -/
theorem camera_translation_exact_witness :
    Option.map Prod.fst
        (update_camera (Camera2D.mk (400, 300) 400 300) (AABB.mk 24 300 50 50)) =
      some ((Camera2D.mk (400, 300) 400 300).position.1 +
        ((AABB.mk 24 300 50 50).left - leftBoundary (Camera2D.mk (400, 300) 400 300))) ∧
    Option.map Prod.fst
        (update_camera (Camera2D.mk (400, 300) 400 300) (AABB.mk 24 300 50 50)) =
      some ((AABB.mk 24 300 50 50).left + (Camera2D.mk (400, 300) 400 300).halfW -
        VIEWPORT_MARGIN) :=
  (camera_translation_exact (Camera2D.mk (400, 300) 400 300) (AABB.mk 24 300 50 50)).1
    (by norm_num [leftBoundary_def, AABB.left, VIEWPORT_MARGIN])
    (by norm_num [rightBoundary_def, AABB.right, VIEWPORT_MARGIN])

/-- C3 counterexample: a tracked box wider than the deadzone triggers both
x checks; the first update moves the camera, and a second update with the
same box still returns a correction (and even a different center), so the
correction is not idempotent for every tracked box and camera state. -/
theorem update_camera_not_idempotent_cex :
    update_camera (Camera2D.mk (400, 300) 400 300) (AABB.mk 401 300 304 50) =
      some (402, 300) ∧
    update_camera (Camera2D.mk (402, 300) 400 300) (AABB.mk 401 300 304 50) =
      some (400, 300) := by
  constructor <;>
  norm_num [update_camera, leftBoundary, topBoundary, rightBoundary, bottomBoundary,
    AABB.left, AABB.right, AABB.top, AABB.bottom, Camera2D.topLeft,
    Camera2D.bottomRight, VIEWPORT_MARGIN]

/-- C3 (amended): for a tracked box that fits inside the deadzone (width and
height no larger than the deadzone), applying the returned center and
updating again with the same tracked box position returns nothing. -/
theorem update_camera_idempotent (cam : Camera2D) (p : AABB) (q : ℚ × ℚ)
    (hW : p.right - p.left ≤ rightBoundary cam - leftBoundary cam)
    (hH : p.top - p.bottom ≤ topBoundary cam - bottomBoundary cam)
    (h : update_camera cam p = some q) :
    update_camera (Camera2D.mk q cam.halfW cam.halfH) p = none := by
  rw [update_camera_eq] at h
  by_cases hs : scrollNeeded cam p
  · rw [if_pos hs] at h
    have hq := Option.some.inj h
    subst hq
    have hx := scrollDx_resolve cam p hW
    have hy := scrollDy_resolve cam p hH
    have hns : ¬ scrollNeeded
        (Camera2D.mk (cam.position.1 + scrollDx cam p, cam.position.2 + scrollDy cam p)
          cam.halfW cam.halfH) p := by
      unfold scrollNeeded
      push_neg
      simp only [leftBoundary_def, topBoundary_def, rightBoundary_def, bottomBoundary_def]
      refine ⟨?_, ?_, ?_, ?_⟩ <;>
      linarith [hx.1, hx.2, hy.1, hy.2, leftBoundary_def cam, topBoundary_def cam,
        rightBoundary_def cam, bottomBoundary_def cam]
    rw [update_camera_eq, if_neg hns]
  · rw [if_neg hs] at h
    exact Option.noConfusion h

/-- Witness for C3 (amended): one left crossing, corrected center applied,
second update returns none. -/
theorem update_camera_idempotent_witness :
    update_camera (Camera2D.mk (365, 300) 400 300) (AABB.mk 240 300 50 50) = none :=
  update_camera_idempotent (Camera2D.mk (400, 300) 400 300) (AABB.mk 240 300 50 50)
    (365, 300)
    (by norm_num [leftBoundary_def, rightBoundary_def, AABB.left, AABB.right,
      VIEWPORT_MARGIN])
    (by norm_num [topBoundary_def, bottomBoundary_def, AABB.top, AABB.bottom,
      VIEWPORT_MARGIN])
    (by norm_num [update_camera, leftBoundary, topBoundary, rightBoundary,
      bottomBoundary, AABB.left, AABB.right, AABB.top, AABB.bottom, Camera2D.topLeft,
      Camera2D.bottomRight, VIEWPORT_MARGIN])

/-- C5: when the deadzone is strictly wider and taller than the tracked box,
the left and right scroll conditions never hold together, and neither do
the top and bottom scroll conditions, so at most one scalar correction per
axis is produced. -/
theorem scroll_directions_exclusive (cam : Camera2D) (p : AABB)
    (hW : p.w < rightBoundary cam - leftBoundary cam)
    (hH : p.h < topBoundary cam - bottomBoundary cam) :
    ¬(p.left < leftBoundary cam ∧ p.right > rightBoundary cam) ∧
    ¬(p.top > topBoundary cam ∧ p.bottom < bottomBoundary cam) := by
  have hx : p.right - p.left = p.w := by
    simp only [AABB.right, AABB.left]
    ring
  have hyy : p.top - p.bottom = p.h := by
    simp only [AABB.top, AABB.bottom]
    ring
  constructor <;> rintro ⟨u, v⟩ <;> linarith

/-- Witness for C5 at a small box in a wide deadzone. -/
theorem scroll_directions_exclusive_witness :
    ¬((AABB.mk 400 300 50 50).left < leftBoundary (Camera2D.mk (400, 300) 400 300) ∧
      (AABB.mk 400 300 50 50).right > rightBoundary (Camera2D.mk (400, 300) 400 300)) ∧
    ¬((AABB.mk 400 300 50 50).top > topBoundary (Camera2D.mk (400, 300) 400 300) ∧
      (AABB.mk 400 300 50 50).bottom < bottomBoundary (Camera2D.mk (400, 300) 400 300)) :=
  scroll_directions_exclusive (Camera2D.mk (400, 300) 400 300) (AABB.mk 400 300 50 50)
    (by norm_num [leftBoundary_def, rightBoundary_def, VIEWPORT_MARGIN])
    (by norm_num [topBoundary_def, bottomBoundary_def, VIEWPORT_MARGIN])

/-- The movement section of MyGame.on_update (source lines 132 to 143):
change_x and change_y start at 0; up without down gives +MOVEMENT_SPEED in
y and down without up gives -MOVEMENT_SPEED in y; left without right gives
-MOVEMENT_SPEED in x and right without left gives +MOVEMENT_SPEED in x. -/
def playerChange (up_pressed down_pressed left_pressed right_pressed : Bool) :
    ℤ × ℤ :=
  let change_x : ℤ := 0
  let change_y : ℤ := 0
  let change_y :=
    if up_pressed && !down_pressed then MOVEMENT_SPEED
    else if down_pressed && !up_pressed then -MOVEMENT_SPEED
    else change_y
  let change_x :=
    if left_pressed && !right_pressed then -MOVEMENT_SPEED
    else if right_pressed && !left_pressed then MOVEMENT_SPEED
    else change_x
  (change_x, change_y)

/-- The current-window slot of window_commands: a module global holding an
optional window handle. get_window raises RuntimeError when the slot is
empty, modelled as an error result. -/
def noWindowMessage : String :=
  "No window is active. It has not been created yet, or it was closed."

def get_window {W : Type} (s : Option W) : Except String W :=
  match s with
  | none => Except.error noWindowMessage
  | some w => Except.ok w

/-- set_window stores the given optional handle, replacing the slot. -/
def set_window {W : Type} (window : Option W) (_s : Option W) : Option W :=
  window

/-- close_window: returns immediately when the slot is empty; otherwise it
closes the held window (second component records whether close was called)
and clears the slot. -/
def close_window {W : Type} (s : Option W) : Option W × Bool :=
  match s with
  | none => (none, false)
  | some _ => (none, true)

/-- C10: for each movement axis, the per-step velocity is +MOVEMENT_SPEED
when only the positive key of the axis is pressed, -MOVEMENT_SPEED when
only the negative key is pressed, and exactly 0 when both keys or neither
key of the axis are pressed. -/
theorem player_velocity_keys (u d l r : Bool) :
    ((u = true ∧ d = false) → (playerChange u d l r).2 = MOVEMENT_SPEED) ∧
    ((d = true ∧ u = false) → (playerChange u d l r).2 = -MOVEMENT_SPEED) ∧
    (u = d → (playerChange u d l r).2 = 0) ∧
    ((r = true ∧ l = false) → (playerChange u d l r).1 = MOVEMENT_SPEED) ∧
    ((l = true ∧ r = false) → (playerChange u d l r).1 = -MOVEMENT_SPEED) ∧
    (l = r → (playerChange u d l r).1 = 0) := by
  cases u <;> cases d <;> cases l <;> cases r <;>
  simp [playerChange, MOVEMENT_SPEED]

/-- Witness for C10: up and right pressed, the step velocity is (5, 5). -/
theorem player_velocity_keys_witness :
    (playerChange true false false true).2 = MOVEMENT_SPEED ∧
    (playerChange true false false true).1 = MOVEMENT_SPEED := by
  have h := player_velocity_keys true false false true
  exact ⟨h.1 ⟨rfl, rfl⟩, h.2.2.2.1 ⟨rfl, rfl⟩⟩

/-- C8: get_window returns exactly the window most recently installed by
set_window when one is active, and errors whenever the slot is empty
(never set, set to none, or closed); it never returns an empty result. -/
theorem get_window_spec (W : Type) (w r : W) (prev s : Option W) :
    get_window (set_window (some w) prev) = Except.ok w ∧
    (get_window s = Except.ok r ↔ s = some r) ∧
    get_window (set_window (none : Option W) prev) = Except.error noWindowMessage ∧
    get_window ((close_window s).1) = Except.error noWindowMessage ∧
    get_window (none : Option W) = Except.error noWindowMessage := by
  refine ⟨rfl, ?_, rfl, ?_, rfl⟩ <;> cases s <;>
  simp [get_window, set_window, close_window]

/-- C9: close_window on an empty slot returns immediately leaving the state
unchanged; after any call the slot is empty, and a second call right after
has the same effect on the slot as the first one (and closes nothing). -/
theorem close_window_idempotent (W : Type) (s : Option W) :
    close_window (none : Option W) = ((none : Option W), false) ∧
    (close_window s).1 = none ∧
    close_window ((close_window s).1) = ((none : Option W), false) ∧
    (close_window ((close_window s).1)).1 = (close_window s).1 := by
  cases s <;> simp [close_window]

/-- A 2D point with rational coordinates. -/
abbrev Point := ℚ × ℚ

/-- Squared straight-line distance between two points. -/
def distSq (a b : Point) : ℚ := (b.1 - a.1) ^ 2 + (b.2 - a.2) ^ 2

/-- Modelled from the spec: the optional maximum distance cutoff of
has_line_of_sight (framework code not under src); the query returns false
immediately when the observer to target distance exceeds the cutoff. -/
def exceedsCutoff (a b : Point) : Option ℚ → Bool
  | some m => decide (m ^ 2 < distSq a b)
  | none => false

/-- Modelled from the spec: one slab clipping step of the parametric
segment rectangle test; for a degenerate axis direction the origin must lie
strictly between the two slab planes, otherwise the parametric interval is
narrowed by the two crossing parameters. -/
def clipAxis (o d lft rt : ℚ) (iv : ℚ × ℚ) : Option (ℚ × ℚ) :=
  if d = 0 then
    if lft < o ∧ o < rt then some iv else none
  else
    some (max iv.1 (min ((lft - o) / d) ((rt - o) / d)),
          min iv.2 (max ((lft - o) / d) ((rt - o) / d)))

/-- Modelled from the spec: segment against rectangle interior test by slab
clipping of the parametric interval, with open interval rejection so a
tangent contact does not block; degenerate occluders never block. -/
def segmentIntersectsAABB (a b : Point) (r : AABB) : Bool :=
  if r.w ≤ 0 ∨ r.h ≤ 0 then false
  else
    (clipAxis a.1 (b.1 - a.1) r.left r.right (0, 1)).elim false
      (fun iv =>
        (clipAxis a.2 (b.2 - a.2) r.bottom r.top iv).elim false
          (fun iv2 => decide (iv2.1 < iv2.2)))

/-- Modelled from the spec: has_line_of_sight (framework code not under
src, called by MyGame.on_draw): false when the distance cutoff is exceeded,
trivially true when observer equals target, otherwise true exactly when no
occluder blocks the segment. -/
def has_line_of_sight (observer target : Point) (occluders : List AABB)
    (maxDistance : Option ℚ) : Bool :=
  if exceedsCutoff observer target maxDistance then false
  else if observer = target then true
  else !(occluders.any (segmentIntersectsAABB observer target))

theorem distSq_comm (a b : Point) : distSq a b = distSq b a := by
  unfold distSq
  ring

theorem distSq_self (a : Point) : distSq a a = 0 := by
  unfold distSq
  ring

/-- Parameter reversal of an interval: t maps to 1 - t. -/
def rev (iv : ℚ × ℚ) : ℚ × ℚ := (1 - iv.2, 1 - iv.1)

theorem one_sub_min (a b : ℚ) : 1 - min a b = max (1 - a) (1 - b) := by
  rcases le_total a b with h | h
  · rw [min_eq_left h, max_eq_left (by linarith)]
  · rw [min_eq_right h, max_eq_right (by linarith)]

theorem one_sub_max (a b : ℚ) : 1 - max a b = min (1 - a) (1 - b) := by
  rcases le_total a b with h | h
  · rw [max_eq_right h, min_eq_right (by linarith)]
  · rw [max_eq_left h, min_eq_left (by linarith)]

/-- Reversing the segment direction turns one clipping step into the
reversed clipping of the reversed interval. -/
theorem clipAxis_rev (o d lft rt : ℚ) (iv : ℚ × ℚ) :
    clipAxis (o + d) (-d) lft rt (rev iv) =
      Option.map rev (clipAxis o d lft rt iv) := by
  unfold clipAxis
  by_cases hd : d = 0
  · subst hd
    norm_num
  · have hnd : (-d : ℚ) ≠ 0 := neg_ne_zero.mpr hd
    rw [if_neg hnd, if_neg hd]
    have h1 : (lft - (o + d)) / (-d) = 1 - (lft - o) / d := by
      field_simp
      ring
    have h2 : (rt - (o + d)) / (-d) = 1 - (rt - o) / d := by
      field_simp
      ring
    rw [h1, h2]
    simp [rev, Prod.ext_iff, ← one_sub_min, ← one_sub_max]

/-- The segment against rectangle test does not depend on the direction of
the segment. -/
theorem segmentIntersectsAABB_symm (a b : Point) (r : AABB) :
    segmentIntersectsAABB b a r = segmentIntersectsAABB a b r := by
  unfold segmentIntersectsAABB
  by_cases hdeg : r.w ≤ 0 ∨ r.h ≤ 0
  · rw [if_pos hdeg, if_pos hdeg]
  · rw [if_neg hdeg, if_neg hdeg]
    obtain ⟨d1, hd1⟩ : ∃ d1, b.1 = a.1 + d1 := ⟨b.1 - a.1, by ring⟩
    obtain ⟨d2, hd2⟩ : ∃ d2, b.2 = a.2 + d2 := ⟨b.2 - a.2, by ring⟩
    rw [hd1, hd2]
    have s1 : a.1 - (a.1 + d1) = -d1 := by ring
    have s2 : a.1 + d1 - a.1 = d1 := by ring
    have s3 : a.2 - (a.2 + d2) = -d2 := by ring
    have s4 : a.2 + d2 - a.2 = d2 := by ring
    rw [s1, s2, s3, s4]
    have hrev0 : ((0 : ℚ), (1 : ℚ)) = rev ((0 : ℚ), (1 : ℚ)) := by
      simp [rev]
    conv_lhs => rw [hrev0, clipAxis_rev]
    cases hc1 : clipAxis a.1 d1 r.left r.right ((0 : ℚ), (1 : ℚ)) with
    | none => simp
    | some iv =>
      simp only [Option.map_some', Option.elim_some]
      conv_lhs => rw [clipAxis_rev]
      cases hc2 : clipAxis a.2 d2 r.bottom r.top iv with
      | none => simp
      | some iv2 =>
        simp only [Option.map_some', Option.elim_some, rev]
        rw [decide_eq_decide]
        constructor <;> intro h <;> [linarith; linarith]

/-- C6: for every point P, every occluder set and every optional distance
cutoff (including a zero cutoff), has_line_of_sight from P to P returns
true, with no occluder consulted. -/
theorem has_line_of_sight_self (P : Point) (occ : List AABB) (m : Option ℚ) :
    has_line_of_sight P P occ m = true := by
  unfold has_line_of_sight
  have hc : exceedsCutoff P P m = false := by
    cases m with
    | none => rfl
    | some mv =>
      unfold exceedsCutoff
      rw [distSq_self]
      exact decide_eq_false (not_lt.2 (sq_nonneg mv))
  rw [hc]
  simp

/-- C7: the visibility query is symmetric in observer and target for every
occluder set and distance cutoff. -/
theorem has_line_of_sight_symm (A B : Point) (S : List AABB) (m : Option ℚ) :
    has_line_of_sight A B S m = has_line_of_sight B A S m := by
  unfold has_line_of_sight
  have hc : exceedsCutoff A B m = exceedsCutoff B A m := by
    cases m with
    | none => rfl
    | some mv =>
      unfold exceedsCutoff
      rw [distSq_comm]
  rw [hc]
  by_cases hab : A = B
  · subst hab
    rfl
  · have hba : ¬(B = A) := fun h => hab h.symm
    have hfun : segmentIntersectsAABB B A = segmentIntersectsAABB A B :=
      funext (fun r => segmentIntersectsAABB_symm A B r)
    cases hE : exceedsCutoff B A m <;> simp [hab, hba, hfun]

/-- IEEE style double value for the non-finite input analysis: a finite
rational, a quiet NaN, or a signed infinity (Python floats follow IEEE 754
for comparisons and arithmetic on non-finite values). -/
inductive FP where
  | fin (q : ℚ)
  | nan
  | pinf
  | ninf

/-- Python float less-than: every comparison involving NaN is false;
infinities compare as expected; finite values compare as rationals. -/
def FP.lt : FP → FP → Bool
  | FP.nan, _ => false
  | _, FP.nan => false
  | FP.ninf, FP.ninf => false
  | FP.ninf, _ => true
  | _, FP.ninf => false
  | FP.pinf, _ => false
  | FP.fin _, FP.pinf => true
  | FP.fin a, FP.fin b => decide (a < b)

/-- Python float negation. -/
def FP.neg : FP → FP
  | FP.fin q => FP.fin (-q)
  | FP.nan => FP.nan
  | FP.pinf => FP.ninf
  | FP.ninf => FP.pinf

/-- Python float addition: NaN propagates, opposite infinities give NaN,
an infinity absorbs finite values. -/
def FP.add : FP → FP → FP
  | FP.nan, _ => FP.nan
  | _, FP.nan => FP.nan
  | FP.pinf, FP.ninf => FP.nan
  | FP.ninf, FP.pinf => FP.nan
  | FP.pinf, _ => FP.pinf
  | _, FP.pinf => FP.pinf
  | FP.ninf, _ => FP.ninf
  | _, FP.ninf => FP.ninf
  | FP.fin a, FP.fin b => FP.fin (a + b)

/-- Python float subtraction. -/
def FP.sub (a b : FP) : FP := FP.add a (FP.neg b)

/-- Python float halving (division by the finite constant 2). -/
def FP.half : FP → FP
  | FP.fin q => FP.fin (q / 2)
  | FP.nan => FP.nan
  | FP.pinf => FP.pinf
  | FP.ninf => FP.ninf

/-- The sprite box of the example with IEEE float coordinates. -/
structure AABBf where
  x : FP
  y : FP
  w : FP
  h : FP

def AABBf.left (r : AABBf) : FP := FP.sub r.x (FP.half r.w)

def AABBf.right (r : AABBf) : FP := FP.add r.x (FP.half r.w)

def AABBf.top (r : AABBf) : FP := FP.add r.y (FP.half r.h)

def AABBf.bottom (r : AABBf) : FP := FP.sub r.y (FP.half r.h)

/-- The camera view rectangle with IEEE float coordinates. -/
structure Camera2Df where
  position : FP × FP
  halfW : FP
  halfH : FP

def Camera2Df.topLeft (c : Camera2Df) : FP × FP :=
  (FP.sub c.position.1 c.halfW, FP.add c.position.2 c.halfH)

def Camera2Df.bottomRight (c : Camera2Df) : FP × FP :=
  (FP.add c.position.1 c.halfW, FP.sub c.position.2 c.halfH)

def leftBoundaryf (c : Camera2Df) : FP := FP.add c.topLeft.1 (FP.fin VIEWPORT_MARGIN)

def topBoundaryf (c : Camera2Df) : FP := FP.sub c.topLeft.2 (FP.fin VIEWPORT_MARGIN)

def rightBoundaryf (c : Camera2Df) : FP :=
  FP.sub c.bottomRight.1 (FP.fin VIEWPORT_MARGIN)

def bottomBoundaryf (c : Camera2Df) : FP :=
  FP.add c.bottomRight.2 (FP.fin VIEWPORT_MARGIN)

/-- The scrolling section of MyGame.on_update executed under Python float
semantics: the same four strict comparisons and additive accumulation as
update_camera, but over IEEE values, exactly as the interpreter would run
the source on non-finite coordinates (the source has no validation and no
error path around these lines). -/
def update_cameraf (cam : Camera2Df) (player : AABBf) : Option (FP × FP) :=
  let p1 : Bool × (FP × FP) :=
    if FP.lt player.left (leftBoundaryf cam) then
      (true, (FP.add cam.position.1 (FP.sub player.left (leftBoundaryf cam)),
        cam.position.2))
    else (false, cam.position)
  let p2 : Bool × (FP × FP) :=
    if FP.lt (topBoundaryf cam) player.top then
      (true, (p1.2.1, FP.add p1.2.2 (FP.sub player.top (topBoundaryf cam))))
    else p1
  let p3 : Bool × (FP × FP) :=
    if FP.lt (rightBoundaryf cam) player.right then
      (true, (FP.add p2.2.1 (FP.sub player.right (rightBoundaryf cam)), p2.2.2))
    else p2
  let p4 : Bool × (FP × FP) :=
    if FP.lt player.bottom (bottomBoundaryf cam) then
      (true, (p3.2.1, FP.add p3.2.2 (FP.sub player.bottom (bottomBoundaryf cam))))
    else p3
  if p4.1 then some p4.2 else none

/-- C4: the code contradicts the specified InvalidInput behavior on
non-finite coordinates. With a NaN x coordinate of the tracked box all four
boundary comparisons are false, so the camera update silently no-ops
(returns no correction and raises nothing); with a +infinity x coordinate
it returns a corrupted non-finite center. In neither case does the
controller fail with an InvalidInput condition. -/
theorem update_camera_nonfinite_no_invalid_input :
    update_cameraf (Camera2Df.mk (FP.fin 400, FP.fin 300) (FP.fin 400) (FP.fin 300))
      (AABBf.mk FP.nan (FP.fin 300) (FP.fin 50) (FP.fin 50)) = none ∧
    update_cameraf (Camera2Df.mk (FP.fin 400, FP.fin 300) (FP.fin 400) (FP.fin 300))
      (AABBf.mk FP.pinf (FP.fin 300) (FP.fin 50) (FP.fin 50)) =
      some (FP.pinf, FP.fin 300) := by
  constructor <;>
  norm_num [update_cameraf, AABBf.left, AABBf.right, AABBf.top, AABBf.bottom,
    leftBoundaryf, topBoundaryf, rightBoundaryf, bottomBoundaryf, Camera2Df.topLeft,
    Camera2Df.bottomRight, FP.lt, FP.add, FP.sub, FP.neg, FP.half, VIEWPORT_MARGIN]
